import Mathlib

/-!
Verification of `srunner/scenarios/parking.py` (ParkingScenario) against its
natural-language specification.

The Python source is shallowly embedded below.  CARLA geometry values
(`carla.Location`, `carla.Rotation`, `carla.Vector3D`, `carla.Transform`) are
modelled with real-number fields; `carla.Rotation.get_forward_vector` follows
CARLA's `Math::GetForwardVector` (degrees converted to radians, forward =
(cos pitch * cos yaw, cos pitch * sin yaw, sin pitch)).  The scenario's
mutable state (`other_actors`, the actor-id supply of the data provider) is
threaded explicitly.
-/

/-- Model of `carla.Vector3D`: a 3-component vector. -/
structure Vector3D where
  x : ℝ
  y : ℝ
  z : ℝ

/-- Model of `carla.Location`: a point in world coordinates. -/
structure Location where
  x : ℝ
  y : ℝ
  z : ℝ

/-- Model of `carla.Rotation`: pitch/yaw/roll, in degrees. -/
structure Rotation where
  pitch : ℝ
  yaw : ℝ
  roll : ℝ

/-- Model of `carla.Transform`: a location plus a rotation. -/
structure Transform where
  location : Location
  rotation : Rotation

/-- Degrees to radians, as CARLA's math utilities do. -/
noncomputable def degToRad (d : ℝ) : ℝ :=
  d * (Real.pi / 180)

/-- Model of `carla.Rotation.get_forward_vector`: the unit forward vector of a
rotation (CARLA `Math::GetForwardVector`); roll does not contribute. -/
noncomputable def Rotation.get_forward_vector (r : Rotation) : Vector3D :=
  ⟨Real.cos (degToRad r.pitch) * Real.cos (degToRad r.yaw),
   Real.cos (degToRad r.pitch) * Real.sin (degToRad r.yaw),
   Real.sin (degToRad r.pitch)⟩

/-- Scalar multiple of a vector (`k * transform.rotation.get_forward_vector()`). -/
def Vector3D.scale (c : ℝ) (v : Vector3D) : Vector3D :=
  ⟨c * v.x, c * v.y, c * v.z⟩

/-- Addition `carla.Location + carla.Vector3D` (the `+=` in `spawn_actor`). -/
def Location.addVec (l : Location) (v : Vector3D) : Location :=
  ⟨l.x + v.x, l.y + v.y, l.z + v.z⟩

/-- One entry of the `actors_info` dict in `_initialize_actors`:
`{'yaw': …, 'k': …, 'j': …, 'z': …}`. -/
structure PlacementSpec where
  yaw : ℝ
  k : ℝ
  j : ℝ
  z : ℝ

/-- The placement computation of `ParkingScenario.spawn_actor`
(`parking.py` lines 85–95), translated statement by statement:

```
transform = carla.Transform(start_transform.location, start_transform.rotation)
_perp_angle = 90
transform.location += actor_transform['k'] * transform.rotation.get_forward_vector()
transform.rotation.yaw += _perp_angle
transform.location += actor_transform['j'] * transform.rotation.get_forward_vector()
transform.rotation.yaw = start_transform.rotation.yaw + actor_transform["yaw"]
transform.location.z += actor_transform['z']
```

`carla.Transform(loc, rot)` copies its arguments by value, so the steps
mutate a fresh transform and never the reference. -/
noncomputable def spawn_transform (start_transform : Transform) (spec : PlacementSpec) : Transform :=
  let transform : Transform := ⟨start_transform.location, start_transform.rotation⟩
  let perp_angle : ℝ := 90
  let loc1 := transform.location.addVec (Vector3D.scale spec.k transform.rotation.get_forward_vector)
  let rot1 : Rotation := ⟨transform.rotation.pitch, transform.rotation.yaw + perp_angle, transform.rotation.roll⟩
  let loc2 := loc1.addVec (Vector3D.scale spec.j rot1.get_forward_vector)
  let rot2 : Rotation := ⟨rot1.pitch, start_transform.rotation.yaw + spec.yaw, rot1.roll⟩
  let loc3 : Location := ⟨loc2.x, loc2.y, loc2.z + spec.z⟩
  ⟨loc3, rot2⟩

/-- The spec's description of the Geometry Engine, written as one closed-form
transform (spec §4.1): location is the reference location advanced `k` units
along the reference forward vector, then `j` units along the forward vector of
the 90°-turned rotation, with `spec.z` added to the vertical coordinate;
rotation keeps the reference pitch and roll while yaw is overwritten to
`reference.yaw + spec.yaw`. -/
noncomputable def geometry_engine_spec (ref : Transform) (spec : PlacementSpec) : Transform :=
  let fwd := ref.rotation.get_forward_vector
  let turned : Rotation := ⟨ref.rotation.pitch, ref.rotation.yaw + 90, ref.rotation.roll⟩
  let fwd90 := turned.get_forward_vector
  ⟨⟨ref.location.x + spec.k * fwd.x + spec.j * fwd90.x,
    ref.location.y + spec.k * fwd.y + spec.j * fwd90.y,
    ref.location.z + spec.k * fwd.z + spec.j * fwd90.z + spec.z⟩,
   ⟨ref.rotation.pitch, ref.rotation.yaw + spec.yaw, ref.rotation.roll⟩⟩

/-- An actor handle as returned by `CarlaDataProvider.request_new_actor`:
identity, blueprint kind, the transform it was spawned at, and its
physics-simulation flag (`set_simulate_physics`). -/
structure Actor where
  id : Nat
  kind : String
  transform : Transform
  physics : Bool

/-- The part of `CarlaDataProvider` the scenario touches: a fresh-id supply
for `request_new_actor` (each spawn hands out the next id). -/
structure World where
  nextId : Nat

/-- Model of `CarlaDataProvider.request_new_actor(name, transform)`: returns a new
actor handle (physics initially off) and the advanced id supply. -/
def request_new_actor (w : World) (name : String) (t : Transform) : Actor × World :=
  (⟨w.nextId, name, t, false⟩, ⟨w.nextId + 1⟩)

/-- Observable steps of `spawn_actor`, used to state ordering properties:
the spawn call, the `set_simulate_physics` call, and the append to
`self.other_actors`. -/
inductive Event where
  | spawnCall (kind : String) (id : Nat)
  | setPhysics (id : Nat) (enabled : Bool)
  | append (id : Nat)
deriving DecidableEq

/-- The mutable state of a `ParkingScenario` instance that the embedded
methods read or write, plus the constants set in `__init__`
(`_ego_vehicle_distance_driven = 40`, `_other_actor_target_velocity = 4`,
`_other_actor_max_brake = 1.0`). -/
structure ScenarioState where
  egoVehicles : List Actor
  referenceTransform : Transform
  otherActors : List Actor
  world : World
  egoVehicleDistanceDriven : ℝ
  otherActorTargetVelocity : ℝ
  otherActorMaxBrake : ℝ
  timeout : ℝ

/-- Embedding of `ParkingScenario.__init__` (the state-relevant part): stores the first
ego vehicle's transform as the reference, sets the constant parameters, and
starts with an empty `other_actors` list. -/
def parking_init (egoTransform : Transform) (egoVehicles : List Actor) (world : World)
    (timeout : ℝ) : ScenarioState :=
  { egoVehicles := egoVehicles
    referenceTransform := egoTransform
    otherActors := []
    world := world
    egoVehicleDistanceDriven := 40
    otherActorTargetVelocity := 4
    otherActorMaxBrake := 1.0
    timeout := timeout }

/-- Embedding of `ParkingScenario.spawn_actor` (`parking.py` lines 81–100): compute the
placement transform from `start_transform` and the spec, request the actor,
enable physics on it, and append it to `self.other_actors`.  Returns the new
state and the trace of observable steps, in program order. -/
noncomputable def spawn_actor (s : ScenarioState) (actor_name : String)
    (actor_transform : PlacementSpec) (start_transform : Transform) :
    ScenarioState × List Event :=
  let transform := spawn_transform start_transform actor_transform
  let res := request_new_actor s.world actor_name transform
  let actor := res.1
  let actor' : Actor := { actor with physics := true }
  ({ s with world := res.2, otherActors := s.otherActors ++ [actor'] },
   [Event.spawnCall actor_name actor.id,
    Event.setPhysics actor.id true,
    Event.append actor.id])

/-- The `actors_info` dict of `_initialize_actors`, in insertion order
(Python dicts iterate in insertion order). -/
def actors_info : List (String × PlacementSpec) :=
  [("walker.*", ⟨270, 10, 5, 0⟩),
   ("static.prop.container", ⟨90, 25, 0, 0⟩),
   ("static.prop.shoppingcart", ⟨0, 2, 15, 2⟩)]

/-- Embedding of `ParkingScenario._initialize_actors`: for each entry of `actors_info`,
call `self.spawn_actor(name, spec, self._reference_transform)`.  The
reference transform is re-read from the state at every iteration, exactly as
the Python loop does. -/
noncomputable def initialize_actors_from (s : ScenarioState) :
    List (String × PlacementSpec) → ScenarioState × List Event
  | [] => (s, [])
  | (name, spec) :: rest =>
      let step := spawn_actor s name spec s.referenceTransform
      let next := initialize_actors_from step.1 rest
      (next.1, step.2 ++ next.2)

/-- Embedding of `ParkingScenario._initialize_actors(config)`. -/
noncomputable def initialize_actors (s : ScenarioState) : ScenarioState × List Event :=
  initialize_actors_from s actors_info

/-- The behavior-tree vocabulary used by `_create_behavior`: the atomic
nodes it instantiates and the two composite kinds it constructs
(`py_trees.composites.Sequence` and `py_trees.composites.Parallel` with
policy `SUCCESS_ON_ONE`). -/
inductive Behavior where
  | inTimeToArrivalToVehicle (ego other : Actor) (time : ℝ)
  | keepVelocity (actor : Actor) (target : ℝ) (name : String)
  | driveDistance (actor : Actor) (distance : ℝ) (name : String)
  | stopVehicle (actor : Actor) (brake : ℝ) (name : String)
  | idle (duration : ℝ)
  | sequence (children : List Behavior)
  | parallelSuccessOnOne (name : String) (children : List Behavior)

/-- Embedding of `ParkingScenario._create_behavior` (`parking.py` lines 103–142),
translated line by line.  The local `keep_velocity` parallel composite is
constructed with no children and never attached to the tree, exactly as in
the source; the five leaves are all added directly to `scenario_sequence`.
List indexing (`self.ego_vehicles[0]`, `self.other_actors[0]`) is fallible,
so the result is an `Option`. -/
noncomputable def create_behavior (s : ScenarioState) : Option Behavior :=
  match s.egoVehicles[0]?, s.otherActors[0]? with
  | some ego0, some walker =>
      let ego_stand := Behavior.idle 60
      let dist_to_trigger : ℝ := 5
      let dist_actor_travel : ℝ := 10
      let time_to_reach : ℝ := 5
      let start_condition := Behavior.inTimeToArrivalToVehicle ego0 walker time_to_reach
      let actor_velocity := Behavior.keepVelocity walker s.otherActorTargetVelocity "walker velocity"
      let actor_drive := Behavior.driveDistance walker dist_actor_travel "walker drive distance"
      let actor_stop_crossed_lane := Behavior.stopVehicle walker s.otherActorMaxBrake "walker stop"
      let keep_velocity := Behavior.parallelSuccessOnOne "keep velocity other" []
      some (Behavior.sequence
        [start_condition, actor_velocity, actor_drive, actor_stop_crossed_lane, ego_stand])
  | _, _ => none

/-- The criteria vocabulary: `_create_test_criteria` only ever builds a
`CollisionTest` observing one actor. -/
inductive Criterion where
  | collisionTest (actor : Actor)

/-- Embedding of `ParkingScenario._create_test_criteria` (`parking.py` lines 144–154):
start from an empty list, append one `CollisionTest(self.ego_vehicles[0])`,
and return the list. -/
def create_test_criteria (s : ScenarioState) : Option (List Criterion) :=
  match s.egoVehicles[0]? with
  | some ego0 => some ([] ++ [Criterion.collisionTest ego0])
  | none => none

/-- The two ways a scenario's teardown can be wired: an explicit scoped
lifecycle operation, or an implicit finalizer (Python `__del__`). -/
inductive TeardownHook where
  | explicitScoped
  | implicitFinalizer
deriving DecidableEq

/-- The class `ParkingScenario` wires actor cleanup through `__del__`
(`parking.py` lines 156–160), i.e. through an implicit finalizer; no other
teardown entry point exists in the class. -/
def parking_teardown_hook : TeardownHook :=
  TeardownHook.implicitFinalizer

/-- Exit paths of a scenario run (spec §4.5 and §9). -/
inductive ExitPath where
  | normalCompletion
  | timeoutStop
  | abnormalTermination
deriving DecidableEq

/-- Modelled from the spec: whether a teardown hook is guaranteed to run on
a given exit path.  The spec's design note (§9) states that the source's
teardown-on-deletion is an "implicit cleanup hook" and asks for it to be
replaced by an explicit operation "guaranteed to run on every exit path
(normal completion, timeout, or setup failure …), not an implicit
finalizer": an implicit finalizer is attempted on orderly exits but is not
guaranteed on abnormal termination. -/
def TeardownHook.guaranteedOn : TeardownHook → ExitPath → Bool
  | TeardownHook.explicitScoped, _ => true
  | TeardownHook.implicitFinalizer, ExitPath.normalCompletion => true
  | TeardownHook.implicitFinalizer, ExitPath.timeoutStop => true
  | TeardownHook.implicitFinalizer, ExitPath.abnormalTermination => false

/-- Modelled from the spec: `BasicScenario.remove_all_actors` is not under
`src/` (only its caller `__del__` is); per the spec's teardown contract
(§4.5, §7) it destroys every owned actor best-effort and clears the owned
list.  Returns the new state and the destroyed actor ids in order. -/
def remove_all_actors (s : ScenarioState) : ScenarioState × List Nat :=
  ({ s with otherActors := [] }, s.otherActors.map Actor.id)

/-- Embedding of `ParkingScenario.__del__` (`parking.py` lines 156–160): calls
`self.remove_all_actors()`. -/
def parking_del (s : ScenarioState) : ScenarioState × List Nat :=
  remove_all_actors s

/-- Modelled from the spec: the normalized yaw range.  The spec (§3) says
"yaw is normalized to a defined range" without naming the bounds; we take
the standard [-180, 180] degree interval. -/
def yaw_in_normalized_range (y : ℝ) : Prop :=
  -180 ≤ y ∧ y ≤ 180

/-- The triple of observable steps `spawn_actor` performs for one actor:
spawn, then enable physics, then append to the owned list. -/
def spawnTriple (kind : String) (id : Nat) : List Event :=
  [Event.spawnCall kind id, Event.setPhysics id true, Event.append id]

/-- The transform of the most recently appended owned actor after a
`spawn_actor` call. -/
noncomputable def placed_transform (r : ScenarioState × List Event) : Option Transform :=
  r.1.otherActors.getLast?.map Actor.transform

/-- A sample transform for concrete instantiations. -/
def sampleTransform : Transform :=
  ⟨⟨0, 0, 0⟩, ⟨0, 0, 0⟩⟩

/-- A sample ego-vehicle actor. -/
def hero : Actor :=
  ⟨100, "vehicle.lincoln.mkz2017", sampleTransform, true⟩

/-- A sample walker actor. -/
def walker0 : Actor :=
  ⟨0, "walker.*", sampleTransform, true⟩

/-- A sample scenario state right after `__init__` (no supporting actors
spawned yet). -/
def sampleInitState : ScenarioState :=
  parking_init sampleTransform [hero] ⟨0⟩ 200

/-- A sample scenario state after the walker has been spawned. -/
def sampleState : ScenarioState :=
  { sampleInitState with otherActors := [walker0] }

/-- C2: for every reference `Transform` and every `PlacementSpec`, the
placement computation of `spawn_actor` produces exactly the transform the
spec's Geometry Engine algorithm describes: advance `k` along the reference
forward vector, turn yaw by 90°, advance `j` along the new forward vector,
overwrite yaw to `reference.yaw + spec.yaw` (intermediate rotation not
retained), and add `spec.z` to the vertical coordinate. -/
theorem spawn_transform_matches_geometry_spec (ref : Transform) (spec : PlacementSpec) :
    spawn_transform ref spec = geometry_engine_spec ref spec := by
  simp only [spawn_transform, geometry_engine_spec, Location.addVec, Vector3D.scale,
    Transform.mk.injEq, Location.mk.injEq, Rotation.mk.injEq]

/-- C3 (counterexample): with the reference yaw 0 (inside the normalized
range) and the walker's placement spec from `actors_info` (yaw offset 270),
the computed yaw is 270, outside the normalized range: the placement
computation does not keep yaw normalized. -/
theorem spawn_transform_yaw_outside_range :
    yaw_in_normalized_range (Transform.mk ⟨0, 0, 0⟩ ⟨0, 0, 0⟩).rotation.yaw ∧
    ("walker.*", PlacementSpec.mk 270 10 5 0) ∈ actors_info ∧
    (spawn_transform ⟨⟨0, 0, 0⟩, ⟨0, 0, 0⟩⟩ ⟨270, 10, 5, 0⟩).rotation.yaw = 270 ∧
    ¬ yaw_in_normalized_range
        (spawn_transform ⟨⟨0, 0, 0⟩, ⟨0, 0, 0⟩⟩ ⟨270, 10, 5, 0⟩).rotation.yaw := by
  have hyaw : (spawn_transform ⟨⟨0, 0, 0⟩, ⟨0, 0, 0⟩⟩
      (⟨270, 10, 5, 0⟩ : PlacementSpec)).rotation.yaw = 270 := by
    simp [spawn_transform]
  refine ⟨⟨by norm_num, by norm_num⟩, by simp [actors_info], hyaw, ?_⟩
  rw [hyaw]
  intro h
  have := h.2
  norm_num at this

/-- C3 (amended): the placement computation performs no yaw normalization:
the produced yaw is exactly `reference.yaw + spec.yaw`, whatever value that
sum takes. -/
theorem spawn_transform_yaw_sum (ref : Transform) (spec : PlacementSpec) :
    (spawn_transform ref spec).rotation.yaw = ref.rotation.yaw + spec.yaw :=
  rfl

/-- C4: for every reference `Transform` and every `PlacementSpec` with
`k = 0`, `j = 0`, `z = 0`, the placement computation returns the reference
transform with only the yaw offset applied: same location, same pitch and
roll, yaw equal to `reference.yaw + spec.yaw`; no division and no
degenerate vector is involved. -/
theorem spawn_transform_zero_offsets (ref : Transform) (spec : PlacementSpec)
    (hk : spec.k = 0) (hj : spec.j = 0) (hz : spec.z = 0) :
    spawn_transform ref spec =
      ⟨ref.location, ⟨ref.rotation.pitch, ref.rotation.yaw + spec.yaw, ref.rotation.roll⟩⟩ := by
  simp only [spawn_transform, Location.addVec, Vector3D.scale, hk, hj, hz,
    Transform.mk.injEq, Location.mk.injEq, Rotation.mk.injEq]
  repeat' apply And.intro
  all_goals first | rfl | ring

/-- Witness for C4 at a concrete reference and spec. -/
theorem spawn_transform_zero_offsets_witness :
    (PlacementSpec.mk 45 0 0 0).k = 0 ∧ (PlacementSpec.mk 45 0 0 0).j = 0 ∧
    (PlacementSpec.mk 45 0 0 0).z = 0 ∧
    spawn_transform ⟨⟨1, 2, 3⟩, ⟨10, 20, 30⟩⟩ ⟨45, 0, 0, 0⟩ =
      ⟨⟨1, 2, 3⟩, ⟨10, 20 + 45, 30⟩⟩ :=
  ⟨rfl, rfl, rfl, spawn_transform_zero_offsets ⟨⟨1, 2, 3⟩, ⟨10, 20, 30⟩⟩ ⟨45, 0, 0, 0⟩ rfl rfl rfl⟩

/-- C5: the placement computation is deterministic and state-independent:
for any two scenario states and identical `(name, spec, start_transform)`
inputs, `spawn_actor` places the new actor at the same transform, namely the
pure function `spawn_transform start spec` of the inputs alone; no
simulation time or other hidden state enters the computation. -/
theorem spawn_actor_placement_deterministic (s₁ s₂ : ScenarioState) (name : String)
    (spec : PlacementSpec) (start : Transform) :
    placed_transform (spawn_actor s₁ name spec start) = some (spawn_transform start spec) ∧
    placed_transform (spawn_actor s₁ name spec start) =
      placed_transform (spawn_actor s₂ name spec start) := by
  have h : ∀ s : ScenarioState,
      placed_transform (spawn_actor s name spec start) = some (spawn_transform start spec) := by
    intro s
    simp [placed_transform, spawn_actor, request_new_actor,
      List.getLast?_append_cons s.otherActors]
  exact ⟨h s₁, (h s₁).trans (h s₂).symm⟩

/-- C6: the criteria list built by `_create_test_criteria` is exactly one
criterion: a `CollisionTest` observing the first ego vehicle; no other
criterion is created. -/
theorem create_test_criteria_single_collision (s : ScenarioState) (ego0 : Actor)
    (h : s.egoVehicles[0]? = some ego0) :
    create_test_criteria s = some [Criterion.collisionTest ego0] := by
  simp [create_test_criteria, h]

/-- Witness for C6 at a concrete scenario state with one ego vehicle. -/
theorem create_test_criteria_single_collision_witness :
    sampleState.egoVehicles[0]? = some hero ∧
    create_test_criteria sampleState = some [Criterion.collisionTest hero] :=
  ⟨rfl, create_test_criteria_single_collision sampleState hero rfl⟩

/-- C1: the tree built by `_create_behavior` is a flat `Sequence` of five
leaves — trigger gate, velocity-apply, distance-track, stop, idle — with the
scenario's constants; the `Parallel(SUCCESS_ON_ONE)` composite the method
constructs is never attached, so no parallel node occurs in the tree. -/
theorem create_behavior_flat_sequence (s : ScenarioState) (ego0 walker : Actor)
    (h₁ : s.egoVehicles[0]? = some ego0) (h₂ : s.otherActors[0]? = some walker) :
    create_behavior s = some (Behavior.sequence
      [Behavior.inTimeToArrivalToVehicle ego0 walker 5,
       Behavior.keepVelocity walker s.otherActorTargetVelocity "walker velocity",
       Behavior.driveDistance walker 10 "walker drive distance",
       Behavior.stopVehicle walker s.otherActorMaxBrake "walker stop",
       Behavior.idle 60]) := by
  simp [create_behavior, h₁, h₂]

/-- Witness for C1 at a concrete scenario state. -/
theorem create_behavior_flat_sequence_witness :
    sampleState.egoVehicles[0]? = some hero ∧
    sampleState.otherActors[0]? = some walker0 ∧
    create_behavior sampleState = some (Behavior.sequence
      [Behavior.inTimeToArrivalToVehicle hero walker0 5,
       Behavior.keepVelocity walker0 sampleState.otherActorTargetVelocity "walker velocity",
       Behavior.driveDistance walker0 10 "walker drive distance",
       Behavior.stopVehicle walker0 sampleState.otherActorMaxBrake "walker stop",
       Behavior.idle 60]) :=
  ⟨rfl, rfl, create_behavior_flat_sequence sampleState hero walker0 rfl rfl⟩

/-- C7 (counterexample): the scenario's only teardown entry point is the
implicit `__del__` finalizer, which is not guaranteed to run on abnormal
termination — contradicting the claim that teardown is guaranteed on every
exit path and "not merely attempted via an implicit finalizer". -/
theorem parking_teardown_not_guaranteed :
    parking_teardown_hook = TeardownHook.implicitFinalizer ∧
    TeardownHook.guaranteedOn parking_teardown_hook ExitPath.abnormalTermination = false :=
  ⟨rfl, rfl⟩

/-- C7 (amended): when the `__del__` finalizer does run it destroys every
owned actor — the owned list is emptied and each owned actor's id is
destroyed, in order — and the finalizer is attempted on orderly exit paths;
but it is an implicit finalizer, not guaranteed on abnormal termination. -/
theorem parking_del_removes_all_actors (s : ScenarioState) :
    (parking_del s).1.otherActors = [] ∧
    (parking_del s).2 = s.otherActors.map Actor.id ∧
    TeardownHook.guaranteedOn parking_teardown_hook ExitPath.normalCompletion = true ∧
    TeardownHook.guaranteedOn parking_teardown_hook ExitPath.timeoutStop = true :=
  ⟨rfl, rfl, rfl, rfl⟩

/-- C8: the observable trace of `_initialize_actors` is, for each supporting
actor in turn, the triple spawn call / `set_simulate_physics(True)` / append
to `other_actors`: physics is enabled immediately after each spawn, and the
actor is appended to the owned list before the next actor is spawned. -/
theorem initialize_actors_physics_then_append (s : ScenarioState) :
    (initialize_actors s).2 =
      spawnTriple "walker.*" s.world.nextId ++
      (spawnTriple "static.prop.container" (s.world.nextId + 1) ++
       spawnTriple "static.prop.shoppingcart" (s.world.nextId + 1 + 1)) := by
  simp [initialize_actors, initialize_actors_from, actors_info, spawn_actor,
    request_new_actor, spawnTriple]

/-- C9: `_initialize_actors` leaves the stored reference transform unchanged,
and every spawned actor's placement is computed from the original reference
pose: the appended transforms are exactly `spawn_transform reference spec`
for each spec of `actors_info`, so offsets never compound across spawns. -/
theorem initialize_actors_reference_preserved (s : ScenarioState) :
    (initialize_actors s).1.referenceTransform = s.referenceTransform ∧
    (initialize_actors s).1.otherActors.map Actor.transform =
      s.otherActors.map Actor.transform ++
        actors_info.map (fun p => spawn_transform s.referenceTransform p.2) := by
  simp [initialize_actors, initialize_actors_from, actors_info, spawn_actor,
    request_new_actor]

/-- C10: starting from a fresh state (empty owned-actor list),
`_initialize_actors` spawns exactly three supporting actors in the fixed
order walker, container, shopping cart, with the fixed placement specs of
`actors_info`; afterwards the owned list holds exactly these three actors in
that order, the walker at index 0, each placed by `spawn_transform` from the
reference with its spec. -/
theorem initialize_actors_three_supporting (s : ScenarioState) (h : s.otherActors = []) :
    actors_info = [("walker.*", ⟨270, 10, 5, 0⟩),
                   ("static.prop.container", ⟨90, 25, 0, 0⟩),
                   ("static.prop.shoppingcart", ⟨0, 2, 15, 2⟩)] ∧
    (initialize_actors s).1.otherActors.length = 3 ∧
    (initialize_actors s).1.otherActors.map Actor.kind =
      ["walker.*", "static.prop.container", "static.prop.shoppingcart"] ∧
    (initialize_actors s).1.otherActors.map Actor.transform =
      [spawn_transform s.referenceTransform ⟨270, 10, 5, 0⟩,
       spawn_transform s.referenceTransform ⟨90, 25, 0, 0⟩,
       spawn_transform s.referenceTransform ⟨0, 2, 15, 2⟩] ∧
    ((initialize_actors s).1.otherActors[0]?).map Actor.kind = some "walker.*" := by
  refine ⟨rfl, ?_, ?_, ?_, ?_⟩ <;>
    simp [initialize_actors, initialize_actors_from, actors_info, spawn_actor,
      request_new_actor, h]

/-- Witness for C10 at a concrete fresh scenario state. -/
theorem initialize_actors_three_supporting_witness :
    sampleInitState.otherActors = [] ∧
    (initialize_actors sampleInitState).1.otherActors.map Actor.kind =
      ["walker.*", "static.prop.container", "static.prop.shoppingcart"] :=
  ⟨rfl, (initialize_actors_three_supporting sampleInitState rfl).2.2.1⟩
